import Mathlib

/- Shallow embedding of src/apply-pgscatalog-prs.py: the variant-matching,
concordance-assessment, join-artifact and result-post-processing logic.
Dataframes are modelled as lists of records; interactive column prompts are
modelled by fixing the canonical column roles as record fields; process-level
effects (writing the artifact, printing diagnostics, exiting, invoking the
external scorer) are modelled as an event list. -/

namespace ApplyPrs

/- Data model. A row of the PGSCatalog weight matrix after column-role
resolution: chr_name, chr_position and the chosen rsID column are kept as
strings (the source applies astype(str) before key building); effect_weight
is the numeric weight column. -/
structure WeightRecord where
  chr_name : String
  chr_position : String
  effect_allele : String
  effect_weight : ℚ
  rsID : String
deriving DecidableEq

/- A row of the plink .bim variant table (fixed schema, load_data lines
276-282): chr_name, rsid, chr_position, base_allele, alternative_allele. -/
structure VariantRecord where
  chr_name : String
  rsid : String
  chr_position : String
  base_allele : String
  alternative_allele : String
deriving DecidableEq

/- A weight record after a key strategy has annotated it with the derived
pos_key column. -/
structure AnnotatedWeightRecord extends WeightRecord where
  pos_key : String
deriving DecidableEq

/- A row of the plink .profile score table as read by calculate_prs
(line 352): sample id (IID, the index), CNT2 count (an integer count of
variants used) and SCORESUM. -/
structure ScoreRecord where
  iid : String
  cnt2 : Nat
  scoresum : ℚ
deriving DecidableEq

/- Process-level effects of the pipeline, in program order. -/
inductive Event where
  | printNonAnnotatedError : Event
  | printMisalignedError : Event
  | writeArtifact : List (List String) → Event
  | runScorer : Event
  | exitProc : Nat → Event
deriving DecidableEq

/- The exclusive key-strategy choice made by the prompt in preprocess_data
(lines 295-299). -/
inductive KeyStrategy where
  | rsid : KeyStrategy
  | chrompos : KeyStrategy
deriving DecidableEq

/- The fatal conditions of the program, one per exit call site. -/
inductive FatalCause where
  | missingGenetic : FatalCause
  | missingWeightMatrixArg : FatalCause
  | missingOutArg : FatalCause
  | malformedGenetic : FatalCause
  | missingWeightMatrixFile : FatalCause
  | unannotatedPanel : FatalCause
  | scorerFailure : FatalCause
  | lowConcordance : FatalCause
deriving DecidableEq, Fintype

/- Exit status of each fatal condition, read off the exit calls: line 49
exit(1), line 57 exit(2), line 64 exit(3), line 53 exit(4), line 60 exit(5),
line 164 exit(30), line 348 exit(20), line 315 exit(40). -/
def exitCode : FatalCause → Nat
  | .missingGenetic => 1
  | .missingWeightMatrixArg => 2
  | .missingOutArg => 3
  | .malformedGenetic => 4
  | .missingWeightMatrixFile => 5
  | .unannotatedPanel => 30
  | .scorerFailure => 20
  | .lowConcordance => 40

/- The command-line arguments relevant to check_input. -/
structure Args where
  genetic : Option String
  prs_wm : Option String
  out : Option String

/- check_input (lines 45-64); isfile abstracts os.path.isfile. Returns the
exit status taken, or none when all inputs are present. -/
def check_input (args : Args) (isfile : String → Bool) : Option Nat :=
  match args.genetic with
  | none => some 1
  | some g =>
    if ¬ isfile (g ++ ".bed") then some 4
    else if ¬ isfile (g ++ ".bim") then some 4
    else if ¬ isfile (g ++ ".fam") then some 4
    else
      match args.prs_wm with
      | none => some 2
      | some p =>
        if ¬ isfile p then some 5
        else
          match args.out with
          | none => some 3
          | some _ => none

/- Decimal digit count of a natural number, via its decimal rendering. -/
def numDigits (n : Nat) : Nat := (Nat.toDigits 10 n).length

/- Whether the positive rational num/den is strictly below 10 to the power p. -/
def ratLtPow10 (num den : Nat) (p : Int) : Bool :=
  if p ≥ 0 then num < den * 10 ^ p.toNat else num * 10 ^ (-p).toNat < den

/- The decimal exponent e of the positive rational num/den, the unique e with
10^e ≤ num/den < 10^(e+1). -/
def decExponent (num den : Nat) : Int :=
  let e0 : Int := (numDigits num : Int) - (numDigits den : Int)
  if ratLtPow10 num den e0 then e0 - 1 else e0

/- The mantissa of num/den scaled by 10^4 and rounded to the nearest integer
(ties away from zero), given the decimal exponent e: round(num/den / 10^e * 10^4). -/
def roundedMantissa (num den : Nat) (e : Int) : Nat :=
  let p : Int := 4 - e
  let numS := if p ≥ 0 then num * 10 ^ p.toNat else num
  let denS := if p ≥ 0 then den else den * 10 ^ (-p).toNat
  (2 * numS + denS) / (2 * denS)

/- The fixed floating-point format of the artifact and result writers,
float_format of the to_csv calls at lines 312 and 354: scientific notation
with a 1-digit integer part and 4 fractional digits, as in -7.3000e-05. -/
def format_e4 (q : ℚ) : String :=
  if q = 0 then "0.0000e+00"
  else
    let sgn := if q < 0 then "-" else ""
    let num := q.num.natAbs
    let den := q.den
    let e := decExponent num den
    let m := roundedMantissa num den e
    let me : Nat × Int := if m ≥ 100000 then (10000, e + 1) else (m, e)
    let ds := Nat.toDigits 10 me.1
    let mantissa := String.mk (ds.take 1) ++ "." ++ String.mk (ds.drop 1)
    let esgn := if me.2 < 0 then "-" else "+"
    let en := me.2.natAbs
    let estr := if en < 10 then "0" ++ String.mk (Nat.toDigits 10 en)
                else String.mk (Nat.toDigits 10 en)
    sgn ++ mantissa ++ "e" ++ esgn ++ estr

/- prep_keys_rsid (lines 160-173). The guard models
plink_variants_df.rsid.nunique() == 1 and unique()[0] == "." via dedup; on
the guard the process prints the non-annotated-panel diagnostic and exits
with status 30. Otherwise every weight record gets pos_key from the chosen
rsID column (line 171). -/
def prep_keys_rsid (pgscatalog : List WeightRecord) (plink_variants : List VariantRecord) :
    Except (List Event) (List AnnotatedWeightRecord) :=
  if ((plink_variants.map VariantRecord.rsid).dedup).length = 1 ∧
      ((plink_variants.map VariantRecord.rsid).dedup).headD "" = "." then
    .error [.printNonAnnotatedError, .exitProc 30]
  else
    .ok (pgscatalog.map fun r => ⟨r, r.rsID⟩)

/- prep_keys_chrompos (lines 175-187): pos_key is the chosen chromosome
column concatenated with ":" and the chosen position column (line 186),
with no transformation of the chromosome string. -/
def prep_keys_chrompos (pgscatalog : List WeightRecord) : List AnnotatedWeightRecord :=
  pgscatalog.map fun r => ⟨r, r.chr_name ++ ":" ++ r.chr_position⟩

/- The strategy dispatch of preprocess_data (lines 300-307). -/
def prep_keys : KeyStrategy → List WeightRecord → List VariantRecord →
    Except (List Event) (List AnnotatedWeightRecord)
  | .rsid, pgscatalog, plink_variants => prep_keys_rsid pgscatalog plink_variants
  | .chrompos, pgscatalog, _ => .ok (prep_keys_chrompos pgscatalog)

/- The shared-key set of check_the_files_match (line 192):
set(plink_variants_df.rsid).intersection(pgscatalog_df.pos_key). -/
def shared_keys (pgscatalog : List AnnotatedWeightRecord)
    (plink_variants : List VariantRecord) : Finset String :=
  (plink_variants.map VariantRecord.rsid).toFinset ∩
    (pgscatalog.map AnnotatedWeightRecord.pos_key).toFinset

/- check_the_files_match (lines 190-199): true iff the number of shared keys
strictly exceeds 0.50 times the weight-matrix row count. The source compares
shared > 0.50 * total; over exact arithmetic that is 2 * shared > total, the
form used here so the predicate evaluates; the theorem on claim C1 proves
this equal to the rational-threshold comparison of the source. -/
def check_the_files_match (pgscatalog : List AnnotatedWeightRecord)
    (plink_variants : List VariantRecord) : Bool :=
  decide (2 * (shared_keys pgscatalog plink_variants).card > pgscatalog.length)

/- The artifact written at line 312:
pgscatalog_df[[pos_key, effect_allele, effect_weight]].to_csv(..., sep tab,
float_format %.4e). to_csv keeps its default index=True, so the header row
carries an empty leading cell for the unnamed RangeIndex and every data row
carries the 0-based row index as an extra leading field. -/
def artifact_rows (pgscatalog : List AnnotatedWeightRecord) : List (List String) :=
  ["", "pos_key", "effect_allele", "effect_weight"] ::
    pgscatalog.enum.map fun p =>
      [toString p.1, p.2.pos_key, p.2.effect_allele, format_e4 p.2.effect_weight]

/- preprocess_data (lines 291-315) as its event trace: key the records
(possibly exiting inside prep_keys_rsid), always write the artifact (line
312), then on a failed match print the misaligned-files diagnostic and exit
with status 40 (lines 313-315). -/
def preprocess_events (s : KeyStrategy) (pgscatalog : List WeightRecord)
    (plink_variants : List VariantRecord) : List Event :=
  match prep_keys s pgscatalog plink_variants with
  | .error evs => evs
  | .ok ann =>
    .writeArtifact (artifact_rows ann) ::
      (if check_the_files_match ann plink_variants then []
       else [.printMisalignedError, .exitProc 40])

/- Whether an event terminates the process. -/
def exits : Event → Bool
  | .exitProc _ => true
  | _ => false

/- main after loading (lines 407-419): preprocess_data, then - only if the
process did not exit - calculate_prs, whose first step invokes the external
plink scorer (lines 337-344). -/
def run_pipeline (s : KeyStrategy) (pgscatalog : List WeightRecord)
    (plink_variants : List VariantRecord) : List Event :=
  let evs := preprocess_events s pgscatalog plink_variants
  if evs.any exits then evs else evs ++ [.runScorer]

/- The mean CNT2 of plink_qc (line 319), as an exact rational. -/
def cnt2_mean (df : List ScoreRecord) : ℚ :=
  ((df.map ScoreRecord.cnt2).sum : ℚ) / (df.length : ℚ)

/- The per-row predicate of plink_qc line 320: CNT2 < 0.95 * mean(CNT2).
With mean = sum / length and both sides multiplied by the positive
20 * length this is 20 * length * CNT2 < 19 * sum, the denominator-cleared
form used here so the predicate evaluates; the theorem on claim C7 proves
it equal to the rational comparison of the source. -/
def cnt2_below_threshold (df : List ScoreRecord) (r : ScoreRecord) : Bool :=
  decide (20 * df.length * r.cnt2 < 19 * (df.map ScoreRecord.cnt2).sum)

/- plink_qc (lines 318-327): collect the IID index labels of the rows whose
CNT2 is strictly below 0.95 times the mean, then drop the rows carrying
those labels. -/
def plink_qc (df : List ScoreRecord) : List ScoreRecord :=
  let bad_samples := (df.filter fun r => cnt2_below_threshold df r).map ScoreRecord.iid
  df.filter fun r => decide (r.iid ∉ bad_samples)

/- Modelled from the spec: the chromosome-name normalization the spec claims
for both sides of the overlap comparison ("stripping a chr prefix"). In the
source this exists only inside the commented-out input_files_qc (lines
128-144, chrom_cutter at line 142) and is never executed. -/
def chrom_cutter (s : String) : String :=
  if s.toList.take 3 = ['c', 'h', 'r'] then String.mk (s.toList.drop 3) else s

/- Modelled from the spec: locus keying with chromosome normalization
applied to the weight-matrix side before key derivation. -/
def prep_keys_chrompos_spec_normalized (pgscatalog : List WeightRecord) :
    List AnnotatedWeightRecord :=
  pgscatalog.map fun r => ⟨r, chrom_cutter r.chr_name ++ ":" ++ r.chr_position⟩

/- Modelled from the spec: the overlap verdict with chromosome normalization
applied to both the weight-matrix side and the panel side before the
comparison, as the spec words require. -/
def check_with_normalization (pgscatalog : List WeightRecord)
    (plink_variants : List VariantRecord) : Bool :=
  check_the_files_match (prep_keys_chrompos_spec_normalized pgscatalog)
    (plink_variants.map fun v => { v with chr_name := chrom_cutter v.chr_name })

/- Concrete records used for witnesses and counterexamples. -/

def wrPlain : WeightRecord := ⟨"1", "100", "T", mkRat (-73) 1000000, "rs1"⟩

def wrChr : WeightRecord := ⟨"chr1", "100", "T", mkRat (-73) 1000000, "rs1"⟩

def wrB : WeightRecord := ⟨"2", "200", "A", mkRat 1 100, "rs2"⟩

def pvLocus : VariantRecord := ⟨"1", "1:100", "100", "T", "G"⟩

def pvDot : VariantRecord := ⟨"1", ".", "100", "A", "G"⟩

def vRs5 : VariantRecord := ⟨"1", "rs5", "101", "A", "G"⟩

def panelMixed : List VariantRecord := [pvDot, ⟨"2", ".", "55", "C", "T"⟩, vRs5]

def mkW (c p : String) : WeightRecord := ⟨c, p, "A", mkRat 1 100, "."⟩

def mkV (s : String) : VariantRecord := ⟨"1", s, "0", "A", "G"⟩

/- The rejection scenario of the spec: a 10-row weight matrix whose locus
keys share exactly 3 keys with a 12-variant panel. -/
def wm10 : List WeightRecord :=
  [mkW "1" "1", mkW "1" "2", mkW "1" "3", mkW "1" "4", mkW "1" "5",
   mkW "1" "6", mkW "1" "7", mkW "1" "8", mkW "1" "9", mkW "1" "10"]

def panel12 : List VariantRecord :=
  [mkV "1:1", mkV "1:2", mkV "1:3", mkV "a4", mkV "a5", mkV "a6",
   mkV "a7", mkV "a8", mkV "a9", mkV "a10", mkV "a11", mkV "a12"]

/- A 2-row weight matrix sharing exactly 1 key with the panel: the shared
ratio is exactly one half. -/
def pgsHalf : List AnnotatedWeightRecord := prep_keys_chrompos [mkW "1" "1", mkW "1" "2"]

def plinkOne : List VariantRecord := [mkV "1:1"]

def exS1 : ScoreRecord := ⟨"S1", 100, 0⟩

def exS2 : ScoreRecord := ⟨"S2", 100, 0⟩

def exS3 : ScoreRecord := ⟨"S3", 40, 0⟩

def exScores : List ScoreRecord := [exS1, exS2, exS3]

/- Helper lemmas. -/

lemma gt_half_iff_two_mul_gt (s n : ℕ) :
    ((s : ℚ) > (50 / 100 : ℚ) * (n : ℚ)) ↔ 2 * s > n := by
  rw [gt_iff_lt, gt_iff_lt]
  constructor
  · intro h
    have h2 : (n : ℚ) < ((2 * s : ℕ) : ℚ) := by push_cast; linarith
    exact_mod_cast h2
  · intro h
    have h2 : (n : ℚ) < ((2 * s : ℕ) : ℚ) := by exact_mod_cast h
    push_cast at h2
    linarith

lemma dedup_of_all_eq {α : Type} [DecidableEq α] (l : List α) (a : α) (hne : l ≠ [])
    (h : ∀ x ∈ l, x = a) : l.dedup = [a] := by
  induction l with
  | nil => exact absurd rfl hne
  | cons b t ih =>
    have hb : b = a := h b (List.mem_cons_self b t)
    subst hb
    cases t with
    | nil => simp
    | cons c t' =>
      have hc : c = b := h c (List.mem_cons_of_mem b (List.mem_cons_self c t'))
      have hmem : b ∈ c :: t' := by
        rw [hc]
        exact List.mem_cons_self b t'
      rw [List.dedup_cons_of_mem hmem]
      exact ih (by simp) (fun x hx => h x (List.mem_cons_of_mem b hx))

lemma below_threshold_iff (df : List ScoreRecord) (r : ScoreRecord)
    (hn : df.length ≠ 0) :
    cnt2_below_threshold df r = true ↔
      ((r.cnt2 : ℚ) < (95 / 100 : ℚ) * cnt2_mean df) := by
  have hnpos : (0 : ℚ) < (df.length : ℚ) := by
    exact_mod_cast Nat.pos_of_ne_zero hn
  rw [cnt2_below_threshold, decide_eq_true_eq, cnt2_mean, ← mul_div_assoc,
    lt_div_iff₀ hnpos]
  constructor
  · intro h
    have h2 : 20 * (df.length : ℚ) * (r.cnt2 : ℚ) <
        19 * (((df.map ScoreRecord.cnt2).sum : ℕ) : ℚ) := by exact_mod_cast h
    linarith
  · intro h
    have h2 : 20 * (df.length : ℚ) * (r.cnt2 : ℚ) <
        19 * (((df.map ScoreRecord.cnt2).sum : ℕ) : ℚ) := by linarith
    exact_mod_cast h2

/-- Claim C1: for every weight-record table and variant-record table, the
concordance assessor accepts iff the number of distinct shared join keys
strictly exceeds 0.50 times the weight-record count, and a ratio exactly
equal to one half (2 times the shared count equal to the total) is
rejected. -/
theorem c1_concordance_accept_iff_ratio_above_half
    (pgscatalog : List AnnotatedWeightRecord) (plink_variants : List VariantRecord) :
    (check_the_files_match pgscatalog plink_variants = true ↔
      (((shared_keys pgscatalog plink_variants).card : ℚ) >
        (50 / 100 : ℚ) * (pgscatalog.length : ℚ))) ∧
    (2 * (shared_keys pgscatalog plink_variants).card = pgscatalog.length →
      check_the_files_match pgscatalog plink_variants = false) := by
  have hb : check_the_files_match pgscatalog plink_variants = true ↔
      2 * (shared_keys pgscatalog plink_variants).card > pgscatalog.length := by
    rw [check_the_files_match, decide_eq_true_eq]
  constructor
  · exact hb.trans (gt_half_iff_two_mul_gt _ _).symm
  · intro heq
    rcases Bool.eq_false_or_eq_true (check_the_files_match pgscatalog plink_variants)
      with h | h
    · exact absurd (hb.mp h) (by omega)
    · exact h

/-- Witness for claim C1 at the exact boundary: 2 weight records, 1 shared
key, ratio exactly one half, rejected. -/
theorem c1_concordance_boundary_witness :
    2 * (shared_keys pgsHalf plinkOne).card = pgsHalf.length ∧
      check_the_files_match pgsHalf plinkOne = false :=
  ⟨by decide, (c1_concordance_accept_iff_ratio_above_half pgsHalf plinkOne).2 (by decide)⟩

/-- Claim C2 as stated is false at a concrete input: the code never strips a
"chr" chromosome prefix (that step exists only in the commented-out
input_files_qc), so the raw locus key "chr1:100" misses the panel key
"1:100" and the verdict differs from the spec-described normalized
comparison. -/
theorem c2_normalization_not_applied_cx :
    (prep_keys_chrompos [wrChr]).map AnnotatedWeightRecord.pos_key = ["chr1:100"] ∧
      check_the_files_match (prep_keys_chrompos [wrChr]) [pvLocus] = false ∧
      (prep_keys_chrompos_spec_normalized [wrChr]).map AnnotatedWeightRecord.pos_key
        = ["1:100"] ∧
      check_with_normalization [wrChr] [pvLocus] = true := by
  decide

/-- Claim C2 (amended): the locus key is a pure per-row concatenation of
chromosome and position, so the derived key multiset and the verdict are
invariant under any reordering of either input table; but no chromosome-name
normalization is applied on either side - the raw chromosome string,
including any "chr" prefix, goes into the key verbatim. -/
theorem c2_locus_key_order_independent_unnormalized :
    (∀ (pgs pgs' : List WeightRecord) (plink plink' : List VariantRecord),
      pgs.Perm pgs' → plink.Perm plink' →
      ((prep_keys_chrompos pgs).map AnnotatedWeightRecord.pos_key).Perm
          ((prep_keys_chrompos pgs').map AnnotatedWeightRecord.pos_key) ∧
        check_the_files_match (prep_keys_chrompos pgs) plink =
          check_the_files_match (prep_keys_chrompos pgs') plink') ∧
    (∀ r : WeightRecord,
      (prep_keys_chrompos [r]).map AnnotatedWeightRecord.pos_key =
        [r.chr_name ++ ":" ++ r.chr_position]) := by
  constructor
  · intro pgs pgs' plink plink' hp hq
    have hkeys : ((prep_keys_chrompos pgs).map AnnotatedWeightRecord.pos_key).Perm
        ((prep_keys_chrompos pgs').map AnnotatedWeightRecord.pos_key) := by
      simp only [prep_keys_chrompos, List.map_map]
      exact hp.map _
    refine ⟨hkeys, ?_⟩
    have hsh : shared_keys (prep_keys_chrompos pgs) plink =
        shared_keys (prep_keys_chrompos pgs') plink' := by
      unfold shared_keys
      rw [List.toFinset_eq_of_perm _ _ hkeys,
        List.toFinset_eq_of_perm _ _ (hq.map VariantRecord.rsid)]
    have hlen : (prep_keys_chrompos pgs).length = (prep_keys_chrompos pgs').length := by
      simp [prep_keys_chrompos, hp.length_eq]
    rw [check_the_files_match, check_the_files_match, hsh, hlen]
  · intro r
    rfl

/-- Witness for claim C2 at a concrete permutation of a 2-row table. -/
theorem c2_locus_key_order_independent_witness :
    ((prep_keys_chrompos [wrChr, wrB]).map AnnotatedWeightRecord.pos_key).Perm
        ((prep_keys_chrompos [wrB, wrChr]).map AnnotatedWeightRecord.pos_key) ∧
      check_the_files_match (prep_keys_chrompos [wrChr, wrB]) [pvLocus] =
        check_the_files_match (prep_keys_chrompos [wrB, wrChr]) [pvLocus] :=
  c2_locus_key_order_independent_unnormalized.1 [wrChr, wrB] [wrB, wrChr]
    [pvLocus] [pvLocus] (by decide) (by decide)

/-- Claim C3 is contradicted by the code at a one-row weight table: the
writer at line 312 leaves the to_csv default index=True, so the artifact
carries a leading row-index column - 4 fields per row, with the join key at
position 2 - while the scorer invocation at lines 337-344 documents
positional columns 1, 2, 3 as variant id, effect allele and beta. The row
order, the pass-through of rows and the %.4e weight format are as claimed;
the column count is not. -/
theorem c3_artifact_has_leading_index_column :
    artifact_rows (prep_keys_chrompos [wrPlain]) =
      [["", "pos_key", "effect_allele", "effect_weight"],
       ["0", "1:100", "T", "-7.3000e-05"]] ∧
      (artifact_rows (prep_keys_chrompos [wrPlain])).map List.length = [4, 4] := by
  decide

/-- Claim C4: whenever the panel is nonempty and every variant carries the
sentinel identifier ".", the identifier strategy prints the
non-annotated-panel diagnostic and exits with status 30; no artifact is
written, the scorer is never invoked and no locus keying happens. -/
theorem c4_all_sentinel_rsid_fails_fast (pgs : List WeightRecord)
    (plink : List VariantRecord) (hne : plink ≠ [])
    (hall : ∀ v ∈ plink, v.rsid = ".") :
    run_pipeline .rsid pgs plink = [.printNonAnnotatedError, .exitProc 30] := by
  have hmapne : plink.map VariantRecord.rsid ≠ [] := by
    intro h
    exact hne (List.map_eq_nil_iff.mp h)
  have hdedup : (plink.map VariantRecord.rsid).dedup = ["."] := by
    refine dedup_of_all_eq _ _ hmapne ?_
    intro x hx
    obtain ⟨v, hv, rfl⟩ := List.mem_map.mp hx
    exact hall v hv
  have hprep : prep_keys_rsid pgs plink =
      .error [.printNonAnnotatedError, .exitProc 30] := by
    rw [prep_keys_rsid]
    rw [hdedup]
    simp
  have hpre : preprocess_events .rsid pgs plink =
      [.printNonAnnotatedError, .exitProc 30] := by
    simp [preprocess_events, prep_keys, hprep]
  simp [run_pipeline, hpre, exits]

/-- Witness for claim C4: a fully unannotated one-variant panel. -/
theorem c4_all_sentinel_rsid_fails_fast_witness :
    run_pipeline .rsid [wrPlain] [pvDot] = [.printNonAnnotatedError, .exitProc 30] :=
  c4_all_sentinel_rsid_fails_fast [wrPlain] [pvDot] (by decide) (by decide)

/-- Claim C5: whenever keying succeeds, the first event of preprocess_data
is writing the join artifact - before the verdict check - so on a rejected
verdict the artifact write and the exit event both occur, write first. -/
theorem c5_artifact_written_before_verdict (s : KeyStrategy)
    (pgs : List WeightRecord) (plink : List VariantRecord)
    (ann : List AnnotatedWeightRecord)
    (hok : prep_keys s pgs plink = .ok ann) :
    (preprocess_events s pgs plink).head? =
        some (.writeArtifact (artifact_rows ann)) ∧
      (check_the_files_match ann plink = false →
        Event.writeArtifact (artifact_rows ann) ∈ preprocess_events s pgs plink ∧
          Event.exitProc 40 ∈ preprocess_events s pgs plink) := by
  have hpre : preprocess_events s pgs plink =
      .writeArtifact (artifact_rows ann) ::
        (if check_the_files_match ann plink then []
         else [.printMisalignedError, .exitProc 40]) := by
    simp [preprocess_events, hok]
  refine ⟨by rw [hpre]; rfl, fun hrej => ?_⟩
  rw [hpre, hrej]
  simp

/-- Witness for claim C5: a run rejected for lack of overlap still has the
artifact write as its first event. -/
theorem c5_artifact_written_before_verdict_witness :
    (preprocess_events .chrompos [wrPlain] []).head? =
        some (.writeArtifact (artifact_rows (prep_keys_chrompos [wrPlain]))) ∧
      Event.writeArtifact (artifact_rows (prep_keys_chrompos [wrPlain])) ∈
          preprocess_events .chrompos [wrPlain] [] ∧
        Event.exitProc 40 ∈ preprocess_events .chrompos [wrPlain] [] :=
  ⟨(c5_artifact_written_before_verdict .chrompos [wrPlain] []
      (prep_keys_chrompos [wrPlain]) rfl).1,
   (c5_artifact_written_before_verdict .chrompos [wrPlain] []
      (prep_keys_chrompos [wrPlain]) rfl).2 (by decide)⟩

/-- Claim C6: a run whose verdict is rejected emits the multi-cause
misaligned-files diagnostic, terminates with exit status 40, and never
reaches the external scorer invocation. -/
theorem c6_rejected_run_exits_without_scorer (s : KeyStrategy)
    (pgs : List WeightRecord) (plink : List VariantRecord)
    (ann : List AnnotatedWeightRecord)
    (hok : prep_keys s pgs plink = .ok ann)
    (hrej : check_the_files_match ann plink = false) :
    run_pipeline s pgs plink =
        [.writeArtifact (artifact_rows ann), .printMisalignedError, .exitProc 40] ∧
      Event.runScorer ∉ run_pipeline s pgs plink := by
  have hpre : preprocess_events s pgs plink =
      [.writeArtifact (artifact_rows ann), .printMisalignedError, .exitProc 40] := by
    simp [preprocess_events, hok, hrej]
  have hrun : run_pipeline s pgs plink =
      [.writeArtifact (artifact_rows ann), .printMisalignedError, .exitProc 40] := by
    simp [run_pipeline, hpre, exits]
  refine ⟨hrun, ?_⟩
  rw [hrun]
  simp

/-- Witness for claim C6, the rejection scenario of the spec: a 10-row
weight matrix sharing 3 locus keys with a 12-variant panel. -/
theorem c6_rejected_run_exits_without_scorer_witness :
    run_pipeline .chrompos wm10 panel12 =
        [.writeArtifact (artifact_rows (prep_keys_chrompos wm10)),
         .printMisalignedError, .exitProc 40] ∧
      Event.runScorer ∉ run_pipeline .chrompos wm10 panel12 :=
  c6_rejected_run_exits_without_scorer .chrompos wm10 panel12
    (prep_keys_chrompos wm10) rfl (by decide)

/-- Claim C7: over per-sample score records (distinct sample identifiers),
the post-processor keeps a sample iff its variants-used count is not
strictly below 0.95 times the uncorrected mean over all samples; on counts
S1 100, S2 100, S3 40 exactly S3 is dropped. -/
theorem c7_qc_excludes_below_mean_threshold :
    (∀ df : List ScoreRecord, (df.map ScoreRecord.iid).Nodup →
      ∀ r ∈ df, (r ∈ plink_qc df ↔
        ¬ ((r.cnt2 : ℚ) < (95 / 100 : ℚ) * cnt2_mean df))) ∧
      plink_qc exScores = [exS1, exS2] := by
  constructor
  · intro df hnodup r hr
    have hn : df.length ≠ 0 := by
      intro h0
      rw [List.length_eq_zero] at h0
      subst h0
      exact absurd hr (List.not_mem_nil r)
    rw [← below_threshold_iff df r hn]
    simp only [plink_qc, List.mem_filter, decide_eq_true_eq]
    constructor
    · rintro ⟨-, hnotin⟩ hbad
      exact hnotin (List.mem_map.mpr ⟨r, List.mem_filter.mpr ⟨hr, hbad⟩, rfl⟩)
    · intro hgood
      refine ⟨hr, fun hin => ?_⟩
      obtain ⟨t, ht, htid⟩ := List.mem_map.mp hin
      have htdf := (List.mem_filter.mp ht).1
      have htbad := (List.mem_filter.mp ht).2
      have heq : t = r := List.inj_on_of_nodup_map hnodup htdf hr htid
      rw [heq] at htbad
      exact hgood htbad
  · decide

/-- Witness for claim C7 on the example of the spec. -/
theorem c7_qc_excludes_below_mean_threshold_witness :
    (exScores.map ScoreRecord.iid).Nodup ∧
      (exS3 ∈ plink_qc exScores ↔
        ¬ ((exS3.cnt2 : ℚ) < (95 / 100 : ℚ) * cnt2_mean exScores)) :=
  ⟨by decide,
   c7_qc_excludes_below_mean_threshold.1 exScores (by decide) exS3 (by decide)⟩

/-- Claim C8: the eight fatal conditions of the program carry pairwise
distinct exit statuses - the cause-to-code map is injective. -/
theorem c8_exit_codes_distinct : Function.Injective exitCode := by
  decide

/-- Claim C9: on an empty weight-record table the concordance assessor
always rejects - the shared-key count 0 is not strictly greater than 0.50
times a total of 0, so the degenerate ratio is never an acceptance path. -/
theorem c9_empty_weight_matrix_rejected (plink : List VariantRecord) :
    check_the_files_match [] plink = false := by
  have h : shared_keys [] plink = ∅ := by
    simp [shared_keys]
  simp [check_the_files_match, h]

/-- Claim C10: the sentinel fail-fast check fires only when the identifier
column holds exactly the single value "."; any panel containing one real
identifier, even among many sentinels, lets the identifier strategy proceed
and annotate every weight record with its rsID column. -/
theorem c10_rsid_strategy_proceeds_with_any_real_identifier
    (pgs : List WeightRecord) (plink : List VariantRecord) (v : VariantRecord)
    (hv : v ∈ plink) (hne : v.rsid ≠ ".") :
    prep_keys_rsid pgs plink = .ok (pgs.map fun r => ⟨r, r.rsID⟩) := by
  have hcond : ¬(((plink.map VariantRecord.rsid).dedup).length = 1 ∧
      ((plink.map VariantRecord.rsid).dedup).headD "" = ".") := by
    rintro ⟨hlen, hhead⟩
    obtain ⟨x, hx⟩ := List.length_eq_one.mp hlen
    have hvmem : v.rsid ∈ (plink.map VariantRecord.rsid).dedup :=
      List.mem_dedup.mpr (List.mem_map.mpr ⟨v, hv, rfl⟩)
    rw [hx] at hvmem hhead
    simp at hvmem hhead
    exact hne (hvmem.trans hhead)
  rw [prep_keys_rsid, if_neg hcond]

/-- Witness for claim C10: a panel of two sentinels and one real identifier
proceeds. -/
theorem c10_rsid_strategy_proceeds_witness :
    vRs5 ∈ panelMixed ∧ vRs5.rsid ≠ "." ∧
      prep_keys_rsid [wrPlain] panelMixed = .ok [⟨wrPlain, wrPlain.rsID⟩] :=
  ⟨by decide, by decide,
   c10_rsid_strategy_proceeds_with_any_real_identifier [wrPlain] panelMixed vRs5
     (by decide) (by decide)⟩

end ApplyPrs
